import Mathlib

/-!
Verification of the generative-model definitions in `pytorch-generative`
(files `pytorch_generative/models/vae.py` and
`pytorch_generative/models/vq_vae_2.py`).

The tensor/autograd framework (torch) and the sibling modules
`pytorch_generative.models.vaes` (Encoder, Decoder, Quantizer) and
`pytorch_generative.trainer` (Trainer) are external to the two source
files; their components are abstracted as functions or configuration
records, and where the specification alone describes them they are
modelled from the spec (marked in the doc comment).

Python runtime errors (NameError, AttributeError) are embedded with
`Except PyErr`.  Random draws (`torch.randn`, `torch.randn_like`) are
passed in as explicit noise arguments.  Real-valued tensor entries are
embedded as rationals, with `torch.exp` and `torch.sqrt` abstracted as
function parameters.
-/

/-- Python runtime errors that the embedded code can raise. -/
inductive PyErr : Type where
  | nameError : String → PyErr
  | attributeError : String → PyErr
  | indexError : PyErr
deriving DecidableEq, Repr

/-! ### Module-level name resolution for `vq_vae_2.py`

The module `vq_vae_2.py` executes three imports (`torch`, `nn`, `vaes`)
and defines `VQVAE2` and `reproduce`; these are its only global names.
A bare name used inside the module that is not a local, not one of these
globals and not a Python builtin raises `NameError`. -/

/-- Global names bound at module scope in `vq_vae_2.py`: the imports
`torch`, `nn` (from `torch`), `vaes`, and the two top-level
definitions. -/
def vq_vae_2_globals : List String :=
  ["torch", "nn", "vaes", "VQVAE2", "reproduce"]

/-- Resolving a bare (non-local, non-builtin) name at module scope of
`vq_vae_2.py`: succeeds exactly on the module globals, otherwise raises
`NameError`.  The names resolved through this function below
(`Quantizer`, `F`, `N_EPOCHS`) are not Python builtins. -/
def resolveGlobal (n : String) : Except PyErr Unit :=
  if n ∈ vq_vae_2_globals then Except.ok () else Except.error (PyErr.nameError n)

/-! ### Configuration records for the external `vaes` components

`vaes.Encoder`, `vaes.Decoder` and `vaes.Quantizer` live in
`pytorch_generative/models/vaes.py`, which is not part of the two source
files.  Their constructors are embedded as records of the keyword
arguments the source passes them. -/

/-- Constructor arguments of `vaes.Encoder`. -/
structure EncoderCfg where
  in_channels : Nat
  out_channels : Nat
  hidden_channels : Nat
  n_residual_blocks : Nat
  residual_channels : Nat
  stride : Nat
deriving DecidableEq, Repr

/-- Constructor arguments of `vaes.Decoder`. -/
structure DecoderCfg where
  in_channels : Nat
  out_channels : Nat
  hidden_channels : Nat
  n_residual_blocks : Nat
  residual_channels : Nat
  stride : Nat
deriving DecidableEq, Repr

/-- Constructor arguments of `vaes.Quantizer`. -/
structure QuantizerCfg where
  in_channels : Nat
  n_embeddings : Nat
  embedding_dim : Nat
deriving DecidableEq, Repr

/-- Constructor arguments of `torch.nn.Conv2d` as used in
`VQVAE2.__init__`. -/
structure Conv2dCfg where
  in_channels : Nat
  out_channels : Nat
  kernel_size : Nat
deriving DecidableEq, Repr

/-- The `VQVAE2` module as `__init__` would build it: two encoders, a
top and a bottom quantizer, a top and a bottom decoder, and a 1x1
convolution between the two decoders. -/
structure VQVAE2Cfg where
  encoder_b : EncoderCfg
  encoder_t : EncoderCfg
  quantizer_t : QuantizerCfg
  quantizer_b : QuantizerCfg
  decoder_t : DecoderCfg
  conv : Conv2dCfg
  decoder_b : DecoderCfg
deriving DecidableEq, Repr

/-- `VQVAE2.__init__` from `vq_vae_2.py` (lines 22-74).  It builds
`_encoder_b`, `_encoder_t` and `_quantizer_t` (the latter through the
qualified name `vaes.Quantizer`), but `_quantizer_b` is constructed
through the bare name `Quantizer`, which is not bound at module scope,
so the call raises `NameError` before the remaining components are
built. -/
def VQVAE2_init (in_channels out_channels hidden_channels
    n_residual_blocks residual_channels n_embeddings embedding_dim : Nat) :
    Except PyErr VQVAE2Cfg := do
  let encoder_b : EncoderCfg :=
    ⟨in_channels, hidden_channels, hidden_channels,
      n_residual_blocks, residual_channels, 2⟩
  let encoder_t : EncoderCfg :=
    ⟨hidden_channels, hidden_channels, hidden_channels,
      n_residual_blocks, residual_channels, 2⟩
  let quantizer_t : QuantizerCfg :=
    ⟨hidden_channels, n_embeddings, embedding_dim⟩
  let _ ← resolveGlobal ("Quantizer")
  let quantizer_b : QuantizerCfg :=
    ⟨hidden_channels, n_embeddings, embedding_dim⟩
  let decoder_t : DecoderCfg :=
    ⟨embedding_dim, hidden_channels, hidden_channels,
      n_residual_blocks, residual_channels, 2⟩
  let conv : Conv2dCfg := ⟨in_channels, embedding_dim, 1⟩
  let decoder_b : DecoderCfg :=
    ⟨2 * embedding_dim, out_channels, hidden_channels,
      n_residual_blocks, residual_channels, 2⟩
  pure ⟨encoder_b, encoder_t, quantizer_t, quantizer_b,
    decoder_t, conv, decoder_b⟩

/-- `VQVAE2()` with the default arguments of `__init__`:
`in_channels=1, out_channels=1, hidden_channels=128,
n_residual_blocks=2, residual_channels=32, n_embeddings=128,
embedding_dim=16`. -/
def VQVAE2_init_default : Except PyErr VQVAE2Cfg :=
  VQVAE2_init 1 1 128 2 32 128 16

/-! ### Semantics of `VQVAE2.forward`

`forward` (lines 76-86) applies the components built by `__init__`.  The
components come from the external `vaes` module, so their behaviour is
abstracted: a semantics record maps each component to a function on an
abstract tensor type `T` (quantizers also return a rational loss, as
`vaes.Quantizer.__call__` returns a `(quantized, loss)` pair, and
`torch.cat` along `dim=1` and `F.mse_loss` are likewise abstracted). -/

/-- Abstract semantics of the components of a `VQVAE2` instance, over an
abstract tensor type `T`. -/
structure VQVAE2Sem (T : Type) where
  encoder_b : T → T
  encoder_t : T → T
  quantizer_t : T → T × ℚ
  quantizer_b : T → T × ℚ
  decoder_t : T → T
  conv : T → T
  cat1 : T → T → T
  decoder_b : T → T
  mse_loss : T → T → ℚ

/-- The value bound to `xhat` in `VQVAE2.forward` (lines 77-85): the
bottom encoding is encoded again by the top encoder, both levels are
quantized, the quantized top level is decoded, and the bottom decoder is
applied to `torch.cat((self._conv(decoded_t), quantized_b), dim=1)`.
These lines run without error; `forward` only raises afterwards, when
the return expression mentions the unbound name `F`
(see `VQVAE2.forward`). -/
def VQVAE2.reconstruction {T : Type} (m : VQVAE2Sem T) (x : T) : T :=
  let encoded_b := m.encoder_b x
  let encoded_t := m.encoder_t encoded_b
  let quantized_t := (m.quantizer_t encoded_t).1
  let quantized_b := (m.quantizer_b encoded_b).1
  let decoded_t := m.decoder_t quantized_t
  m.decoder_b (m.cat1 (m.conv decoded_t) quantized_b)

/-- `VQVAE2.forward` (lines 76-86).  After computing `xhat`, the return
expression evaluates `F.mse_loss(decoded_t, encoded_b)`; `F` is only
imported inside `reproduce`, never at module scope, so evaluating the
bare name `F` raises `NameError`.  The `Except.ok` branch is what the
source would return if `F` resolved. -/
def VQVAE2.forward {T : Type} (m : VQVAE2Sem T) (x : T) :
    Except PyErr (T × ℚ) := do
  let encoded_b := m.encoder_b x
  let encoded_t := m.encoder_t encoded_b
  let quantized_t := (m.quantizer_t encoded_t).1
  let vq_loss_t := (m.quantizer_t encoded_t).2
  let quantized_b := (m.quantizer_b encoded_b).1
  let vq_loss_b := (m.quantizer_b encoded_b).2
  let decoded_t := m.decoder_t quantized_t
  let xhat := m.decoder_b (m.cat1 (m.conv decoded_t) quantized_b)
  let _ ← resolveGlobal ("F")
  pure (xhat, (1 / 2) * (vq_loss_b + vq_loss_t) + m.mse_loss decoded_t encoded_b)

/-- A two-level hierarchical reconstruction, written from the words of
claim C4: for an input `x`, the bottom encoder output is further encoded
by the top encoder, each of the two levels is vector-quantized, and the
reconstruction is the bottom decoder applied to the concatenation of the
(convolved) decoded top level and the quantized bottom level. -/
def specHierarchicalRecon {T : Type} (m : VQVAE2Sem T) (x : T) : T :=
  m.decoder_b
    (m.cat1
      (m.conv (m.decoder_t (m.quantizer_t (m.encoder_t (m.encoder_b x))).1))
      (m.quantizer_b (m.encoder_b x)).1)

/-! ### Numeric view of `VAE.forward` (`vae.py`, lines 51-62)

Tensors are rank-4 arrays of rationals indexed batch, channel, height,
width.  `torch.exp` and `torch.sqrt` are abstracted as function
parameters `qexp` and `qsqrt`; the draw of `torch.randn_like(var)` is
the explicit argument `eps`.  The encoder and decoder come from the
external `vaes` module and are abstract functions; the spatial size of
the latent grid is an abstract pair `(hL, wL)`. -/

/-- A rank-4 tensor of rationals with shape `(b, c, h, w)`. -/
def Tensor4 (b c h w : Nat) : Type :=
  Fin b → Fin c → Fin h → Fin w → ℚ

/-- First output of `torch.split(t, lc, dim=1)` on a tensor with `2*lc`
channels: channels `0 ≤ c < lc`. -/
def splitLo {b lc h w : Nat} (t : Tensor4 b (2 * lc) h w) :
    Tensor4 b lc h w :=
  fun i c j k => t i ⟨c.val, by have := c.isLt; omega⟩ j k

/-- Second output of `torch.split(t, lc, dim=1)` on a tensor with `2*lc`
channels: channels `lc ≤ c < 2*lc`. -/
def splitHi {b lc h w : Nat} (t : Tensor4 b (2 * lc) h w) :
    Tensor4 b lc h w :=
  fun i c j k => t i ⟨lc + c.val, by have := c.isLt; omega⟩ j k

/-- `t.mean(dim=(1, 2, 3))`: the mean of the entries over the channel
and both spatial dimensions, one scalar per batch element. -/
def meanCHW {b c h w : Nat} (t : Tensor4 b c h w) : Fin b → ℚ :=
  fun i =>
    (∑ p : Fin c, ∑ j : Fin h, ∑ k : Fin w, t i p j k) / ((c * h * w : Nat) : ℚ)

/-- The encoder and decoder of a `VAE` instance (external `vaes`
components), abstracted over the tensor shapes: the encoder produces
`2 * latent_channels` channels on an `hL × wL` latent grid, and the
decoder maps `latent_channels` channels back to the input grid. -/
structure VAESem (b ic oc lc hI wI hL wL : Nat) where
  encoder : Tensor4 b ic hI wI → Tensor4 b (2 * lc) hL wL
  decoder : Tensor4 b lc hL wL → Tensor4 b oc hI wI

/-- The `kl_div` expression of `VAE.forward` (lines 56-61), as a
function of the encoder output `encoded`:
`-0.5 * (1 + log_var - mean ** 2 - var).mean(dim=(1, 2, 3))` where
`mean, log_var = torch.split(encoded, latent_channels, dim=1)` and
`var = torch.exp(log_var)`. -/
def VAE.kl_div (qexp : ℚ → ℚ) {b lc hL wL : Nat}
    (encoded : Tensor4 b (2 * lc) hL wL) : Fin b → ℚ :=
  let mean := splitLo encoded
  let log_var := splitHi encoded
  let var : Tensor4 b lc hL wL := fun i c j k => qexp (log_var i c j k)
  fun i =>
    (-(1 / 2) : ℚ) *
      meanCHW
        (fun i c j k =>
          1 + log_var i c j k - mean i c j k ^ 2 - var i c j k) i

/-- `VAE.forward` (lines 51-62), numeric view: splits the encoder
output into `mean` and `log_var`, forms
`latents = mean + torch.sqrt(var) * eps` with `var = torch.exp(log_var)`
and `eps = torch.randn_like(var)`, and returns the pair
`(decoder(latents), kl_div)`.  The assignment to `self._in_size` is the
state effect treated in the runtime view below. -/
def VAE.forward (qexp qsqrt : ℚ → ℚ) {b ic oc lc hI wI hL wL : Nat}
    (m : VAESem b ic oc lc hI wI hL wL)
    (x : Tensor4 b ic hI wI) (eps : Tensor4 b lc hL wL) :
    Tensor4 b oc hI wI × (Fin b → ℚ) :=
  let encoded := m.encoder x
  let mean := splitLo encoded
  let log_var := splitHi encoded
  let var : Tensor4 b lc hL wL := fun i c j k => qexp (log_var i c j k)
  let latents : Tensor4 b lc hL wL :=
    fun i c j k => mean i c j k + qsqrt (var i c j k) * eps i c j k
  (m.decoder latents, VAE.kl_div qexp encoded)

/-- Reparameterized latents, written from the words of claim C3: the
encoder output is split along the channel dimension into two halves of
`latent_channels` channels each (`mean` and `log_var`), and the latents
are `mean + sqrt(exp(log_var)) * eps` with `eps` a standard-normal
draw. -/
def specReparamLatents (qexp qsqrt : ℚ → ℚ) {b ic lc hI wI hL wL : Nat}
    {oc : Nat} (m : VAESem b ic oc lc hI wI hL wL)
    (x : Tensor4 b ic hI wI) (eps : Tensor4 b lc hL wL) :
    Tensor4 b lc hL wL :=
  fun i c j k =>
    splitLo (m.encoder x) i c j k +
      qsqrt (qexp (splitHi (m.encoder x) i c j k)) * eps i c j k

/-- Closed-form KL divergence `KL(N(mu, sigma2) ‖ N(0, 1))
= (mu² + sigma2 − 1 − ln sigma2) / 2`, written from the words of claim
C8 with the variance given through its logarithm: `sigma2 = exp(lv)`,
so `ln sigma2 = lv`, with `exp` abstracted as `qexp`. -/
def gaussKL (qexp : ℚ → ℚ) (mu lv : ℚ) : ℚ :=
  (1 / 2) * (mu ^ 2 + qexp lv - 1 - lv)

/-! ### Runtime view of `VAE` (`vae.py`, lines 51-70)

This view tracks the attribute `_in_size`, which `forward` assigns
(`self._in_size = x.shape[2]`, line 53) and `sample` reads (line 67).
On a fresh instance the attribute does not exist, so reading it raises
`AttributeError`.  Tensors here carry their `torch` shape together with
their entries. -/

/-- A tensor for the shape-level view: its shape list together with its
entries, indexed by multi-index. -/
structure PyT where
  shape : List Nat
  data : List Nat → ℚ

/-- The attributes of a `VAE` instance that `sample` depends on:
`_latent_channels` and `_stride` (set by `__init__`, lines 30-31, with
`_stride = 4`), the decoder (external `vaes.Decoder`, abstracted), and
`_in_size`, which is `none` until `forward` assigns it.  The remaining
`__init__` arguments only configure the external encoder/decoder stacks
and do not appear in `sample`. -/
structure VAERuntime where
  latent_channels : Nat
  stride : Nat
  decoder : PyT → PyT
  in_size : Option Nat

/-- A freshly constructed `VAE`: `_stride = 4` and no `_in_size`
attribute. -/
def VAE_initRuntime (latent_channels : Nat) (decoder : PyT → PyT) :
    VAERuntime :=
  ⟨latent_channels, 4, decoder, none⟩

/-- The state effect of `VAE.forward` (line 53):
`self._in_size = x.shape[2]` (an `IndexError` if `x` has fewer than
three dimensions). -/
def VAE.forward_in_size (m : VAERuntime) (x : PyT) :
    Except PyErr VAERuntime :=
  match x.shape.get? 2 with
  | some s => Except.ok { m with in_size := some s }
  | none => Except.error PyErr.indexError

/-- `VAE.sample` (lines 64-70): reads `self._in_size` (raising
`AttributeError` when `forward` has not yet assigned it), computes
`latent_size = self._in_size // 2 ** (self._stride // 2)`, draws
`latents = torch.randn((n_samples, self._latent_channels, latent_size,
latent_size))` (the draw is the explicit `noise` argument), and returns
`self._decoder(latents)`. -/
def VAE.sample (m : VAERuntime) (n_samples : Nat)
    (noise : List Nat → ℚ) : Except PyErr PyT :=
  match m.in_size with
  | none => Except.error (PyErr.attributeError ("_in_size"))
  | some s =>
    let latent_size := s / 2 ^ (m.stride / 2)
    let shape := [n_samples, m.latent_channels, latent_size, latent_size]
    let latents : PyT := ⟨shape, noise⟩
    Except.ok (m.decoder latents)

/-! ### Straight-through gradient estimator

`vaes.Quantizer` is not among the source files; the spec says the core
includes "vector quantization with a straight-through gradient
estimator".  A one-dimensional autograd trace suffices to state the
gradient claim: a dual number carries a value and its derivative with
respect to a designated scalar input. -/

/-- A scalar together with its derivative with respect to a designated
input, the shallow autograd model for the gradient claim. -/
structure DiffDual where
  val : ℚ
  grad : ℚ
deriving DecidableEq, Repr

/-- Sum of two traced scalars; derivatives add. -/
def DiffDual.add (a b : DiffDual) : DiffDual :=
  ⟨a.val + b.val, a.grad + b.grad⟩

/-- Difference of two traced scalars; derivatives subtract. -/
def DiffDual.sub (a b : DiffDual) : DiffDual :=
  ⟨a.val - b.val, a.grad - b.grad⟩

/-- `Tensor.detach()`: same value, removed from the autograd graph, so
its derivative with respect to every input is zero. -/
def DiffDual.detach (a : DiffDual) : DiffDual :=
  ⟨a.val, 0⟩

/-- Modelled from the spec: "vector quantization with a straight-through
gradient estimator" (`vaes.Quantizer` is missing from the source files).
The quantizer maps its input to a codebook value through an arbitrary
quantization map, and the straight-through output is
`x + (quantize(x) - x).detach()`: the forward value is the quantized
value, while the backward pass sees the identity. -/
def straightThroughQuantize (quantize : DiffDual → DiffDual)
    (x : DiffDual) : DiffDual :=
  DiffDual.add x (DiffDual.detach (DiffDual.sub (quantize x) x))

/-! ### The two `reproduce` scripts

`reproduce` in `vae.py` (lines 73-149) and in `vq_vae_2.py` (lines
89-159) wire up data loaders, the model, an Adam optimizer, a
multiplicative learning-rate scheduler and the generic
`trainer.Trainer`, then call
`model_trainer.interleaved_train_and_eval(...)`.  The datasets,
optimizer, scheduler and trainer are external; they are embedded as
configuration records of the arguments the source passes (the
function-valued arguments `loss_fn` and `sample_fn` are closures over
external framework calls and are not recorded). -/

/-- The torchvision datasets used by the two scripts. -/
inductive DatasetKind : Type where
  | mnist : DatasetKind
  | cifar10 : DatasetKind
deriving DecidableEq, Repr

/-- A `torch.utils.data.DataLoader` over a torchvision dataset, as
configured by the scripts. -/
structure LoaderCfg where
  dataset : DatasetKind
  train : Bool
  batch_size : Nat
  shuffle : Bool
  num_workers : Nat
deriving DecidableEq, Repr

/-- `optim.Adam(model.parameters(), lr=...)`. -/
structure OptimCfg where
  lr : ℚ
deriving DecidableEq, Repr

/-- `lr_scheduler.MultiplicativeLR(optimizer, lr_lambda=lambda _: c)`
with constant factor `c`. -/
structure SchedCfg where
  factor : ℚ
deriving DecidableEq, Repr

/-- `VAE.__init__` from `vae.py` (lines 13-48): records
`_latent_channels`, `_stride = 4`, and the arguments passed to
`vaes.Encoder` (output `2 * latent_channels` channels, two residual
blocks, stride 4) and `vaes.Decoder`. -/
structure VAECfg where
  latent_channels : Nat
  stride : Nat
  encoder : EncoderCfg
  decoder : DecoderCfg
deriving DecidableEq, Repr

/-- `VAE(...)` construction (`vae.py`, lines 13-48). -/
def VAE_init (in_channels out_channels latent_channels hidden_channels
    residual_channels : Nat) : VAECfg :=
  { latent_channels := latent_channels
    stride := 4
    encoder :=
      ⟨in_channels, 2 * latent_channels, hidden_channels, 2,
        residual_channels, 4⟩
    decoder :=
      ⟨latent_channels, out_channels, hidden_channels, 2,
        residual_channels, 4⟩ }

/-- The model wired into the trainer by a reproduce script. -/
inductive ModelCfg : Type where
  | vae : VAECfg → ModelCfg
  | vqvae2 : VQVAE2Cfg → ModelCfg
deriving DecidableEq, Repr

/-- The keyword arguments the scripts pass to `trainer.Trainer`
(`sample_epochs` is `some 5` in `vae.py` and left at its default in
`vq_vae_2.py`). -/
structure TrainerCfg where
  model : ModelCfg
  optimizer : OptimCfg
  train_loader : LoaderCfg
  eval_loader : LoaderCfg
  lr_scheduler : SchedCfg
  sample_epochs : Option Nat
  log_dir : String
  device : String
deriving DecidableEq, Repr

/-- Modelled from the spec: the "generic training loop" of the external
`trainer.Trainer`, whose `interleaved_train_and_eval(n_epochs)` runs the
interleaved train-and-eval loop for exactly `n_epochs` epochs.  The loop
is modelled by its observable epoch count: it returns the number of
epochs it runs, namely its argument. -/
def interleaved_train_and_eval (_t : TrainerCfg) (n_epochs : Nat) : Nat :=
  n_epochs

/-- `reproduce` from `vae.py` (lines 73-149): MNIST loaders, a
`VAE(1, 1, 2, 128, 32)` model, Adam with `lr=1e-3`, a multiplicative
scheduler with factor `0.999977`, a trainer with `sample_epochs=5`, and
finally `model_trainer.interleaved_train_and_eval(n_epochs)`.  Returns
the trainer configuration together with the number of epochs run. -/
def vae_reproduce (n_epochs batch_size : Nat) (log_dir device : String)
    (debug_loader : Option LoaderCfg) : Except PyErr (TrainerCfg × Nat) :=
  let train_loader :=
    debug_loader.getD ⟨DatasetKind.mnist, true, batch_size, true, 8⟩
  let test_loader :=
    debug_loader.getD ⟨DatasetKind.mnist, false, batch_size, false, 8⟩
  let model := VAE_init 1 1 2 128 32
  let optimizer : OptimCfg := ⟨1 / 1000⟩
  let scheduler : SchedCfg := ⟨999977 / 1000000⟩
  let model_trainer : TrainerCfg :=
    ⟨ModelCfg.vae model, optimizer, train_loader, test_loader, scheduler,
      some 5, log_dir, device⟩
  Except.ok (model_trainer, interleaved_train_and_eval model_trainer n_epochs)

/-- Local names bound in the body of `reproduce` in `vq_vae_2.py`
(parameters, the function-scope imports of lines 104-112, and the
assignments of lines 114-158).  `N_EPOCHS` is not among them. -/
def vq_vae_2_reproduce_locals : List String :=
  ["n_epochs", "batch_size", "log_dir", "device", "debug_loader",
   "optim", "F", "lr_scheduler", "data", "datasets", "transforms",
   "trainer", "models", "transform", "train_loader", "test_loader",
   "model", "optimizer", "scheduler", "loss_fn", "model_trainer"]

/-- Name resolution inside `reproduce` of `vq_vae_2.py`: a name is found
if it is a local of the function body or a module global; `N_EPOCHS` is
neither (nor a Python builtin), so it raises `NameError`. -/
def resolveInVqReproduce (n : String) : Except PyErr Unit :=
  if n ∈ vq_vae_2_reproduce_locals ∨ n ∈ vq_vae_2_globals then
    Except.ok ()
  else
    Except.error (PyErr.nameError n)

/-- `reproduce` from `vq_vae_2.py` (lines 89-159): CIFAR10 loaders, a
`VQVAE2(3, 3, 128, 64, 2, 512, 64)` model, Adam with `lr=2e-4`, a
multiplicative scheduler with factor `0.999977`, a trainer, and finally
`model_trainer.interleaved_train_and_eval(N_EPOCHS)`.  The `VQVAE2`
construction raises `NameError` (bare `Quantizer` in `__init__`); were
it to succeed, evaluating `N_EPOCHS` on the final line would raise
`NameError` as well, so the epoch count passed in the continuation below
is unreachable (the docstring intends `n_epochs`). -/
def vq_vae_2_reproduce (n_epochs batch_size : Nat)
    (log_dir device : String) (debug_loader : Option LoaderCfg) :
    Except PyErr (TrainerCfg × Nat) := do
  let train_loader :=
    debug_loader.getD ⟨DatasetKind.cifar10, true, batch_size, true, 8⟩
  let test_loader :=
    debug_loader.getD ⟨DatasetKind.cifar10, false, batch_size, false, 8⟩
  let model ← VQVAE2_init 3 3 128 2 64 512 64
  let optimizer : OptimCfg := ⟨2 / 10000⟩
  let scheduler : SchedCfg := ⟨999977 / 1000000⟩
  let model_trainer : TrainerCfg :=
    ⟨ModelCfg.vqvae2 model, optimizer, train_loader, test_loader,
      scheduler, none, log_dir, device⟩
  let _ ← resolveInVqReproduce ("N_EPOCHS")
  pure (model_trainer, interleaved_train_and_eval model_trainer n_epochs)

/-! ## Claim theorems -/

/-- C1: the claim states that `VQVAE2(...)` returns a model containing
two encoders, two vector quantizers and two decoders.  On the code this
fails: `__init__` constructs `_quantizer_b` through the bare name
`Quantizer`, which is unbound at module scope of `vq_vae_2.py`, so the
call with the default arguments raises `NameError` instead of returning
a model. -/
theorem vqvae2_init_default_raises :
    VQVAE2_init_default = Except.error (PyErr.nameError ("Quantizer")) := by
  rfl

/-- C2: the claim states that `reproduce(n_epochs, ...)` runs the
train-and-eval loop for exactly `n_epochs` epochs for both models.  For
the `VAE` script this holds (second conjunct, at every argument), but
the `VQVAE2` script raises `NameError` at its default arguments: the
model construction fails on the bare name `Quantizer`, and the final
line would in any case evaluate the unbound name `N_EPOCHS`. -/
theorem vq_vae_2_reproduce_raises :
    vq_vae_2_reproduce 457 128 "/tmp/run" "cuda" none
        = Except.error (PyErr.nameError ("Quantizer"))
    ∧ ∀ (n b : Nat) (l d : String) (dl : Option LoaderCfg),
        (vae_reproduce n b l d dl).map Prod.snd = Except.ok n := by
  exact ⟨rfl, fun n b l d dl => rfl⟩

/-- C4: `VQVAE2` encodes through a hierarchy of exactly two discrete
latent spaces: the value `xhat` computed by `forward` equals, for every
component semantics and input, the composition written from the claim:
the bottom encoder output is further encoded by the top encoder, each of
the two levels is vector-quantized, and the reconstruction is the bottom
decoder applied to the concatenation of the (convolved) decoded top
level and the quantized bottom level. -/
theorem vqvae2_reconstruction_hierarchical {T : Type} (m : VQVAE2Sem T)
    (x : T) : VQVAE2.reconstruction m x = specHierarchicalRecon m x := by
  rfl

/-- C5: the straight-through estimator bypasses quantization in the
backward pass: for every quantization map and every traced input, the
derivative of the quantized output with respect to the designated input
equals that of the quantizer input (the identity Jacobian), while the
forward value is the quantized value. -/
theorem straight_through_grad_id (quantize : DiffDual → DiffDual)
    (x : DiffDual) :
    (straightThroughQuantize quantize x).grad = x.grad
    ∧ (straightThroughQuantize quantize x).val = (quantize x).val := by
  constructor
  · simp [straightThroughQuantize, DiffDual.add, DiffDual.detach,
      DiffDual.sub]
  · simp [straightThroughQuantize, DiffDual.add, DiffDual.detach,
      DiffDual.sub]

/-- C6: for every component semantics and every input,
`VQVAE2.forward` evaluates its return expression only to raise
`NameError` on the unbound name `F` (used for `F.mse_loss`, which is
only imported locally inside `reproduce`), so `forward` never returns a
`(reconstruction, loss)` pair. -/
theorem vqvae2_forward_raises_nameError {T : Type} (m : VQVAE2Sem T)
    (x : T) : VQVAE2.forward m x = Except.error (PyErr.nameError ("F")) := by
  rfl

/-- C3: `VAE.forward` implements reparameterized sampling: for every
exp/sqrt interpretation, encoder/decoder semantics, input `x` and
standard-normal draw `eps`, the result is the pair consisting of the
decoder applied to the reparameterized latents
`mean + sqrt(exp(log_var)) * eps` (with `mean` and `log_var` the two
`latent_channels`-sized halves of the encoder output along the channel
dimension) and the KL-divergence term. -/
theorem vae_forward_reparameterized (qexp qsqrt : ℚ → ℚ)
    {b ic oc lc hI wI hL wL : Nat} (m : VAESem b ic oc lc hI wI hL wL)
    (x : Tensor4 b ic hI wI) (eps : Tensor4 b lc hL wL) :
    VAE.forward qexp qsqrt m x eps
        = (m.decoder (specReparamLatents qexp qsqrt m x eps),
           VAE.kl_div qexp (m.encoder x)) := by
  rfl

/-- C8: the second value returned by `VAE.forward` is, for each batch
element, the closed-form KL divergence between the Gaussian posterior
`N(mean, exp(log_var))` and the standard-normal prior, averaged over the
channel and spatial dimensions. -/
theorem vae_forward_kl_closed_form (qexp qsqrt : ℚ → ℚ)
    {b ic oc lc hI wI hL wL : Nat} (m : VAESem b ic oc lc hI wI hL wL)
    (x : Tensor4 b ic hI wI) (eps : Tensor4 b lc hL wL) (i : Fin b) :
    (VAE.forward qexp qsqrt m x eps).2 i
        = meanCHW
            (fun i c j k =>
              gaussKL qexp (splitLo (m.encoder x) i c j k)
                (splitHi (m.encoder x) i c j k)) i := by
  show VAE.kl_div qexp (m.encoder x) i = _
  unfold VAE.kl_div meanCHW gaussKL
  rw [← mul_div_assoc]
  congr 1
  simp only [Finset.mul_sum]
  refine Finset.sum_congr rfl (fun p _ => ?_)
  refine Finset.sum_congr rfl (fun j _ => ?_)
  refine Finset.sum_congr rfl (fun k _ => ?_)
  ring

/-- C7: `VAE.sample` depends on `forward` having run: on a freshly
constructed `VAE` it raises `AttributeError` (the attribute `_in_size`
is only assigned inside `forward`); after a forward call on an input
whose shape has spatial size `s` at index 2, `sample(n)` draws latents
of shape `(n, latent_channels, s / 4, s / 4)` and returns the decoder
applied to them. -/
theorem vae_sample_requires_forward (lc : Nat) (dec : PyT → PyT)
    (noise : List Nat → ℚ) (n b c s s2 : Nat) (x : PyT)
    (hx : x.shape = [b, c, s, s2]) :
    VAE.sample (VAE_initRuntime lc dec) n noise
        = Except.error (PyErr.attributeError ("_in_size"))
    ∧ (VAE.forward_in_size (VAE_initRuntime lc dec) x).bind
          (fun m2 => VAE.sample m2 n noise)
        = Except.ok (dec ⟨[n, lc, s / 4, s / 4], noise⟩) := by
  constructor
  · rfl
  · simp [VAE.forward_in_size, hx, VAE.sample, VAE_initRuntime,
      Except.bind]

/-- Witness for C7 at a concrete instance: `latent_channels = 2`, the
identity as decoder, zero noise, and a forward pass on a tensor of shape
`(1, 1, 28, 28)`, after which `sample(16)` feeds latents of shape
`(16, 2, 7, 7)` to the decoder. -/
theorem vae_sample_requires_forward_witness :
    VAE.sample (VAE_initRuntime 2 id) 16 (fun _ => 0)
        = Except.error (PyErr.attributeError ("_in_size"))
    ∧ (VAE.forward_in_size (VAE_initRuntime 2 id)
          ⟨[1, 1, 28, 28], fun _ => 0⟩).bind
          (fun m2 => VAE.sample m2 16 (fun _ => 0))
        = Except.ok (id ⟨[16, 2, 28 / 4, 28 / 4], fun _ => 0⟩) :=
  vae_sample_requires_forward 2 id (fun _ => 0) 16 1 1 28 28
    ⟨[1, 1, 28, 28], fun _ => 0⟩ rfl
